import Mathlib

/-!
Verification of the SmartMaintenance telemetry core: a shallow embedding of
the threshold-alert evaluator (`safetyThresholdService`), the waveform sensor
simulator (`sensorSimulator`), the in-memory history buffer
(`sensorController`), the safety control-plane controller
(`safetyController`) and the realtime connection registry (`socketService`),
together with proofs of the specified properties.

Numeric values (JS numbers) are modelled as rationals `ℚ`; JS objects used as
string-keyed dictionaries are modelled as association lists with
first-match lookup and in-place overwrite, which matches JS property-access
and property-assignment semantics (and Map iteration order).
-/

namespace SmartMaintenance

/-! ### String-keyed dictionaries (JS object / Map semantics) -/

/-- First-match lookup, `obj[key]`: `none` models `undefined`. -/
def lookupKey {β : Type} (t : String) : List (String × β) → Option β
  | [] => none
  | (k, v) :: rest => if k = t then some v else lookupKey t rest

/-- Property assignment `obj[key] = v`: overwrites in place an existing key
(keeping its position, as JS objects and Maps do), appends otherwise. -/
def setKey {β : Type} (t : String) (v : β) : List (String × β) → List (String × β)
  | [] => [(t, v)]
  | (k, w) :: rest => if k = t then (k, v) :: rest else (k, w) :: setKey t v rest

/-! ### Data model -/

/-- A sensor reading as produced by `generateReading`
(`backend/services/sensorSimulator.js`). -/
structure Reading where
  value : ℚ
  unit : String
  timestamp : String
deriving DecidableEq

/-- A readings map `{VIBRATION: Reading, ...}` as passed around by the tick. -/
abbrev Readings := List (String × Reading)

/-- One entry of the mutable threshold table
(`safetyThresholdService.safetyThresholds`). -/
structure ThresholdEntry where
  min : ℚ
  max : ℚ
  unit : String
deriving DecidableEq

/-- The mutable threshold table: sensor-type name to entry. -/
abbrev ThresholdTable := List (String × ThresholdEntry)

/-- `DEFAULT_THRESHOLDS` from `backend/services/safetyThresholdService.js`. -/
def DEFAULT_THRESHOLDS : ThresholdTable :=
  [ ("VIBRATION", { min := 0, max := 10, unit := "mm/s" }),
    ("TEMPERATURE", { min := 20, max := 80, unit := "°C" }),
    ("CURRENT", { min := 0, max := 40, unit := "A" }) ]

/-- A safety alert as built by `checkReadings`. -/
structure Alert where
  type : String
  value : ℚ
  unit : String
  threshold : ℚ
  timestamp : String
  message : String
deriving DecidableEq

/-! ### Threshold evaluator (`backend/services/safetyThresholdService.js`) -/

/-- `getThresholds(sensorType)` for a given type: `safetyThresholds[sensorType] || null`. -/
def getThresholds (table : ThresholdTable) (sensorType : String) : Option ThresholdEntry :=
  lookupKey sensorType table

/-- `isReadingSafe(sensorType, value)`: no configured threshold means safe
(fail-open); otherwise `value >= threshold.min && value <= threshold.max`. -/
def isReadingSafe (table : ThresholdTable) (sensorType : String) (value : ℚ) : Bool :=
  match lookupKey sensorType table with
  | none => true
  | some threshold => decide (threshold.min ≤ value) && decide (value ≤ threshold.max)

/-- JS `a || b` for strings: the empty string is falsy. -/
def strOrElse (a b : String) : String :=
  if a = "" then b else a

/-- The alert message template
`"<type> exceeded safe level: <value> <unit>"`. -/
def alertMessage (sensorType : String) (value : ℚ) (unit : String) : String :=
  sensorType ++ " exceeded safe level: " ++ toString value ++ " " ++ unit

/-- The alert `checkReadings` pushes for one unsafe `(sensorType, reading)`
pair, `none` when the reading is safe.  The `lookupKey` branch returning
`none` is unreachable: an unsafe reading implies a configured threshold. -/
def mkAlert (table : ThresholdTable) (now : String) (sensorType : String)
    (reading : Reading) : Option Alert :=
  if isReadingSafe table sensorType reading.value then none
  else
    match lookupKey sensorType table with
    | none => none
    | some threshold =>
      some { type := sensorType
             value := reading.value
             unit := strOrElse reading.unit threshold.unit
             threshold := threshold.max
             timestamp := strOrElse reading.timestamp now
             message := alertMessage sensorType reading.value
               (strOrElse reading.unit threshold.unit) }

/-- `checkReadings(readings)`: one pass over the entries of the readings map,
collecting one alert per unsafe reading.  (The InfluxDB `writePoint` side
effect is best-effort and swallowed; it does not affect the returned
alerts.)  `now` stands for `new Date().toISOString()`, used only when a
reading carries no timestamp. -/
def checkReadings (table : ThresholdTable) (now : String) (readings : Readings) :
    List Alert :=
  readings.filterMap (fun p => mkAlert table now p.1 p.2)

/-- A partial threshold patch: the `{min?, max?}` body assembled by the
controller (only supplied fields present). -/
structure ThresholdPatch where
  newMin : Option ℚ
  newMax : Option ℚ
deriving DecidableEq

/-- The JS spread `{...entry, ...patch}`: supplied fields overwrite, the
rest (including `unit`) are kept. -/
def applyPatch (entry : ThresholdEntry) (patch : ThresholdPatch) : ThresholdEntry :=
  { min := patch.newMin.getD entry.min
    max := patch.newMax.getD entry.max
    unit := entry.unit }

/-- `updateThreshold(sensorType, thresholds)` of
`safetyThresholdService`: throws `Invalid sensor type` when the type is not
in the table, otherwise merge-patches the entry in place and returns it. -/
def updateThreshold (table : ThresholdTable) (sensorType : String)
    (patch : ThresholdPatch) : Except String (ThresholdTable × ThresholdEntry) :=
  match lookupKey sensorType table with
  | none => .error ("Invalid sensor type: " ++ sensorType)
  | some entry =>
    let updated := applyPatch entry patch
    .ok (setKey sensorType updated table, updated)

/-- Outcome of one control-plane request: HTTP status, response body
(updated entry or error message), and the threshold table after the call. -/
structure ControllerResponse where
  status : ℕ
  body : Except String ThresholdEntry
  table : ThresholdTable

/-- An HTTP client-error status (4xx). -/
def IsClientError (status : ℕ) : Prop :=
  400 ≤ status ∧ status < 500

instance (status : ℕ) : Decidable (IsClientError status) := by
  unfold IsClientError; infer_instance

/-- `exports.updateThreshold` of `backend/controllers/safetyController.js`:
400 when the sensor type param is missing or when neither `min` nor `max`
is supplied; otherwise calls the service, answering 200 on success and 500
(via the catch block) when the service throws. -/
def updateThresholdController (table : ThresholdTable) (sensorType : String)
    (newMin newMax : Option ℚ) : ControllerResponse :=
  if sensorType = "" then
    { status := 400, body := .error "Sensor type is required", table := table }
  else if newMin = none ∧ newMax = none then
    { status := 400
      body := .error "At least one threshold value (min or max) is required"
      table := table }
  else
    match updateThreshold table sensorType { newMin := newMin, newMax := newMax } with
    | .ok (table', updated) => { status := 200, body := .ok updated, table := table' }
    | .error msg => { status := 500, body := .error msg, table := table }

/-! ### Waveform model (`backend/services/sensorSimulator.js`) -/

/-- The three simulated sensor types. -/
inductive SensorType
  | VIBRATION
  | TEMPERATURE
  | CURRENT
deriving DecidableEq

/-- Per-type static simulation parameters. -/
structure SensorTypeConfig where
  min : ℚ
  max : ℚ
  safeMax : ℚ
  baseValue : ℚ
  normalVariation : ℚ
  unit : String
deriving DecidableEq

/-- The `SENSOR_TYPES` table of `backend/services/sensorSimulator.js`. -/
def SENSOR_TYPES : SensorType → SensorTypeConfig
  | .VIBRATION =>
    { min := 0, max := 15, safeMax := 10, baseValue := 6.5, normalVariation := 1.5
      unit := "mm/s" }
  | .TEMPERATURE =>
    { min := 20, max := 100, safeMax := 80, baseValue := 60, normalVariation := 8
      unit := "°C" }
  | .CURRENT =>
    { min := 0, max := 50, safeMax := 40, baseValue := 30, normalVariation := 5
      unit := "A" }

/-- `parseFloat(value.toFixed(2))`: round to the nearest multiple of `1/100`. -/
def round2 (q : ℚ) : ℚ :=
  (round (q * 100) : ℤ) / 100

/-- The value computation of `generateReading(sensorType)`.  The ambient
time- and randomness-dependent inputs are passed explicitly:
`active` is the anomaly flag after the start/end transitions,
`sinDaily = Math.sin(dailyCyclePosition)`,
`noiseUnit = Math.random() * 2 - 1`, and
`anomalyShape = Math.sin(anomalyProgress * Math.PI)`.  The claims proved
about it hold for arbitrary rational values of these inputs, hence for the
actual sine/random draws. -/
def generateReading (config : SensorTypeConfig) (active : Bool)
    (sinDaily noiseUnit anomalyShape : ℚ) (timestamp : String) : Reading :=
  let timeBasedVariation := sinDaily * (config.normalVariation * 0.5)
  let noise := noiseUnit * (config.normalVariation * 0.3)
  let value :=
    if active then
      let anomalyExcess := (config.safeMax - config.baseValue) * 1.2
      config.baseValue + timeBasedVariation + noise + anomalyShape * anomalyExcess
    else
      config.baseValue + timeBasedVariation + noise
  let clamped := max config.min (min config.max value)
  { value := round2 clamped, unit := config.unit, timestamp := timestamp }

/-! ### Telemetry scheduler ticks -/

/-- A broadcast payload. -/
inductive Payload
  | readings (rs : Readings)
  | alerts (alertList : List Alert)
deriving DecidableEq

/-- One realtime broadcast: channel name and payload. -/
abbrev Emission := String × Payload

/-- The body of one `setInterval` tick of `startSimulator` in
`backend/services/sensorSimulator.js`: evaluate the fresh readings, emit
them on `sensorReadings` unconditionally, and emit `safetyAlerts` exactly
when at least one alert was produced.  (The tick also updates the sensor
controller state, modelled separately by `updateLatestReadings`.) -/
def simulatorTick (table : ThresholdTable) (now : String) (readings : Readings) :
    List Emission :=
  let safetyAlerts := checkReadings table now readings
  ("sensorReadings", Payload.readings readings) ::
    (if safetyAlerts.isEmpty then [] else [("safetyAlerts", Payload.alerts safetyAlerts)])

/-- `REDUCE_FREQUENCY` flag of the worker-thread variant (`part_007`). -/
def REDUCE_FREQUENCY : Bool := true

/-- `UPDATE_INTERVAL` (ms) of the worker-thread variant (`part_007`). -/
def UPDATE_INTERVAL : ℤ := 3000

/-- Result of one tick of the reduced-frequency variant: the updated
`lastFrontendUpdate` wall-clock stamp and the emissions of the tick. -/
structure ReducedTickResult where
  lastFrontendUpdate : ℤ
  emissions : List Emission
deriving DecidableEq

/-- The body of one `setInterval` tick of `startSimulator` in the
worker-thread variant (`part_007` lines 218-252): when `REDUCE_FREQUENCY`
is set and fewer than `UPDATE_INTERVAL` ms passed since the last frontend
update, the tick returns early after updating the controller, emitting
nothing; otherwise it behaves like the plain tick on the cached
`latestReadings`. -/
def simulatorTickReduced (table : ThresholdTable) (lastFrontendUpdate now : ℤ)
    (nowTs : String) (latestReadings : Readings) : ReducedTickResult :=
  if REDUCE_FREQUENCY ∧ now - lastFrontendUpdate < UPDATE_INTERVAL then
    { lastFrontendUpdate := lastFrontendUpdate, emissions := [] }
  else
    { lastFrontendUpdate := now
      emissions := simulatorTick table nowTs latestReadings }

/-! ### History buffer (`backend/controllers/sensorController.js`,
sampling/batched-eviction variant) -/

/-- `MAX_HISTORY_SIZE` (the buffer capacity). -/
def MAX_HISTORY_SIZE : ℕ := 300

/-- Overflow margin: eviction triggers only past `MAX_HISTORY_SIZE + 50`. -/
def HISTORY_OVERFLOW_MARGIN : ℕ := 50

/-- `HISTORY_SAMPLING_RATE`: store every 2nd reading only. -/
def HISTORY_SAMPLING_RATE : ℕ := 2

/-- One stored history entry `{timestamp, ...readings}`. -/
structure HistoryEntry where
  timestamp : String
  data : Readings
deriving DecidableEq

/-- The module-scope mutable state of the sensor controller. -/
structure SensorControllerState where
  latestReadings : Readings
  readingsHistory : List HistoryEntry
  readingsCounter : ℕ
deriving DecidableEq

/-- `updateLatestReadings(readings)`: always refresh `latestReadings`;
increment the sampling counter and record a history entry at the front only
when the counter hits the sampling rate; when the buffer then exceeds
`MAX_HISTORY_SIZE + 50`, truncate it (`slice(0, MAX_HISTORY_SIZE)`) to
exactly `MAX_HISTORY_SIZE`. -/
def updateLatestReadings (s : SensorControllerState) (nowTs : String)
    (readings : Readings) : SensorControllerState :=
  let counter := s.readingsCounter + 1
  if counter % HISTORY_SAMPLING_RATE ≠ 0 then
    { s with latestReadings := readings, readingsCounter := counter }
  else
    let historyEntry : HistoryEntry := { timestamp := nowTs, data := readings }
    let grown := historyEntry :: s.readingsHistory
    { latestReadings := readings
      readingsCounter := counter
      readingsHistory :=
        if grown.length > MAX_HISTORY_SIZE + HISTORY_OVERFLOW_MARGIN then
          grown.take MAX_HISTORY_SIZE
        else grown }

/-- The initial module state: no readings, empty history, counter 0. -/
def initialSensorState : SensorControllerState :=
  { latestReadings := [], readingsHistory := [], readingsCounter := 0 }

/-- `n` successive simulator calls into `updateLatestReadings` from the
initial state; call `i` carries timestamp `toString i`. -/
def runUpdates : ℕ → SensorControllerState
  | 0 => initialSensorState
  | n + 1 => updateLatestReadings (runUpdates n) (toString (n + 1)) []

/-- The projection `{timestamp, [sensorType]: sensorData}` applied to one
history entry by `getReadingsHistory`, with the `if (!sensorData) return
null` falsy check dropping entries lacking the requested type. -/
def projectEntry (sensorType : String) (entry : HistoryEntry) : Option HistoryEntry :=
  match lookupKey sensorType entry.data with
  | none => none
  | some sensorData => some { timestamp := entry.timestamp, data := [(sensorType, sensorData)] }

/-- `getReadingsHistory` (query path of the sampling variant): cap the
requested `limit` at 100, take that many newest entries, and when a sensor
type is given project each entry to that type, dropping entries without it. -/
def getReadingsHistory (history : List HistoryEntry) (sensorType : Option String)
    (limit : ℕ) : List HistoryEntry :=
  let maxLimit := min limit 100
  match sensorType with
  | some t => (history.take maxLimit).filterMap (projectEntry t)
  | none => history.take maxLimit

/-! ### Connection registry (`backend/services/socketService.js`) -/

/-- The principal attached by an `authenticate` command. -/
structure UserData where
  uid : String
  email : String
  name : String
deriving DecidableEq

/-- One tracked realtime connection. -/
structure Connection where
  id : String
  subscriptions : List (String × Bool)
  user : Option UserData
deriving DecidableEq

/-- `activeConnections`: socket id to connection, in insertion order. -/
abbrev Registry := List (String × Connection)

/-- The default subscription set of a new connection. -/
def defaultSubscriptions : List (String × Bool) :=
  [("sensorReadings", true), ("safetyAlerts", true)]

/-- The `connection` handler: store the new connection with default
subscriptions and no user. -/
def onConnect (reg : Registry) (socketId : String) : Registry :=
  setKey socketId
    { id := socketId, subscriptions := defaultSubscriptions, user := none } reg

/-- The `subscribe` handler: flip the channel on when the connection is
known, silently do nothing otherwise. -/
def subscribeCmd (reg : Registry) (socketId channel : String) : Registry :=
  match lookupKey socketId reg with
  | none => reg
  | some connection =>
    setKey socketId
      { connection with subscriptions := setKey channel true connection.subscriptions } reg

/-- The `unsubscribe` handler: flip the channel off when the connection is
known, silently do nothing otherwise. -/
def unsubscribeCmd (reg : Registry) (socketId channel : String) : Registry :=
  match lookupKey socketId reg with
  | none => reg
  | some connection =>
    setKey socketId
      { connection with subscriptions := setKey channel false connection.subscriptions } reg

/-- The `authenticate` handler: attach the principal when the connection is
known, then acknowledge `authenticated {success: true}` to the issuing
socket unconditionally. -/
def authenticateCmd (reg : Registry) (socketId : String) (userData : UserData) :
    Registry × (String × Bool) :=
  let reg' :=
    match lookupKey socketId reg with
    | none => reg
    | some connection => setKey socketId { connection with user := some userData } reg
  (reg', ("authenticated", true))

/-- Truthiness of `connection.subscriptions[channel]`: missing keys are
`undefined`, hence falsy. -/
def subscribedTo (connection : Connection) (channel : String) : Bool :=
  (lookupKey channel connection.subscriptions).getD false

/-- `emitMultipleSafetyAlerts(alerts)`: when `alerts` is non-empty, deliver
it on the `safetyAlerts` channel to every connection whose subscription set
contains the channel, in registry iteration order.  The result lists the
`(socketId, payload)` deliveries. -/
def emitMultipleSafetyAlerts (reg : Registry) (alertList : List Alert) :
    List (String × List Alert) :=
  if alertList.isEmpty then []
  else
    (reg.filter (fun p => subscribedTo p.2 "safetyAlerts")).map (fun p => (p.1, alertList))

/-! ### Concrete fixtures used by witnesses and scenario conjuncts -/

/-- A registry with connections `A` and `B`, where `A` has issued
`unsubscribe('safetyAlerts')`. -/
def demoRegistry : Registry :=
  unsubscribeCmd (onConnect (onConnect [] "A") "B") "A" "safetyAlerts"

/-- A concrete principal. -/
def demoUser : UserData :=
  { uid := "u1", email := "u1@example.com", name := "User One" }

/-- A concrete alert payload. -/
def demoAlert : Alert :=
  { type := "TEMPERATURE", value := 95, unit := "°C", threshold := 80
    timestamp := "T1", message := alertMessage "TEMPERATURE" 95 "°C" }

/-- A concrete two-entry history buffer, newest first. -/
def demoHistory : List HistoryEntry :=
  [ { timestamp := "T2",
      data := [("TEMPERATURE", { value := 61, unit := "°C", timestamp := "T2" })] },
    { timestamp := "T1", data := [] } ]

/-! ## Dictionary lemmas -/

theorem lookupKey_setKey_self {β : Type} (t : String) (v : β) (l : List (String × β)) :
    lookupKey t (setKey t v l) = some v := by
  induction l with
  | nil => simp [setKey, lookupKey]
  | cons p rest ih =>
    obtain ⟨k, w⟩ := p
    by_cases h : k = t
    · simp [setKey, h, lookupKey]
    · simp [setKey, h, lookupKey, ih]

theorem lookupKey_setKey_ne {β : Type} {t t' : String} (h : t' ≠ t) (v : β)
    (l : List (String × β)) : lookupKey t' (setKey t v l) = lookupKey t' l := by
  induction l with
  | nil => simp [setKey, lookupKey, Ne.symm h]
  | cons p rest ih =>
    obtain ⟨k, w⟩ := p
    by_cases hk : k = t
    · simp [setKey, hk, lookupKey, Ne.symm h]
    · simp [setKey, hk, lookupKey, ih]

theorem setKey_setKey {β : Type} (t : String) (v : β) (l : List (String × β)) :
    setKey t v (setKey t v l) = setKey t v l := by
  induction l with
  | nil => simp [setKey]
  | cons p rest ih =>
    obtain ⟨k, w⟩ := p
    by_cases h : k = t
    · simp [setKey, h]
    · simp [setKey, h, ih]

/-! ## C4: threshold merge-patch round trip -/

/-- Claim C4: for every known sensor type and every patch supplying a subset
of `{min, max}`, `updateThreshold` succeeds, the supplied fields of the
returned (and stored) entry equal the patch values, the non-supplied fields
(including `unit`) are unchanged, and the entries of all other sensor types
are unchanged; in particular `updateThreshold('TEMPERATURE', {max: 90})`
followed by `getThresholds('TEMPERATURE')` yields `max = 90` with `min` and
`unit` untouched. -/
theorem updateThreshold_merge_patch (table : ThresholdTable) (sensorType : String)
    (patch : ThresholdPatch) (entry : ThresholdEntry)
    (h : getThresholds table sensorType = some entry) :
    (∃ table' updated,
      updateThreshold table sensorType patch = .ok (table', updated) ∧
      updated.min = patch.newMin.getD entry.min ∧
      updated.max = patch.newMax.getD entry.max ∧
      updated.unit = entry.unit ∧
      getThresholds table' sensorType = some updated ∧
      ∀ t', t' ≠ sensorType → getThresholds table' t' = getThresholds table t') ∧
    getThresholds
      (updateThresholdController DEFAULT_THRESHOLDS "TEMPERATURE" none (some 90)).table
      "TEMPERATURE" = some { min := 20, max := 90, unit := "°C" } := by
  constructor
  · refine ⟨setKey sensorType (applyPatch entry patch) table, applyPatch entry patch, ?_, ?_, ?_, ?_, ?_, ?_⟩
    · unfold updateThreshold
      rw [show lookupKey sensorType table = some entry from h]
    · rfl
    · rfl
    · rfl
    · exact lookupKey_setKey_self sensorType (applyPatch entry patch) table
    · intro t' ht'
      exact lookupKey_setKey_ne ht' (applyPatch entry patch) table
  · decide

/-- Witness for C4: the hypothesis holds for `TEMPERATURE` on the default
table, and the instantiated conclusion follows from the theorem. -/
theorem updateThreshold_merge_patch_witness :
    getThresholds DEFAULT_THRESHOLDS "TEMPERATURE" =
      some { min := 20, max := 80, unit := "°C" } ∧
    getThresholds
      (updateThresholdController DEFAULT_THRESHOLDS "TEMPERATURE" none (some 90)).table
      "TEMPERATURE" = some { min := 20, max := 90, unit := "°C" } :=
  ⟨by decide,
   (updateThreshold_merge_patch DEFAULT_THRESHOLDS "TEMPERATURE"
      { newMin := none, newMax := some 90 } { min := 20, max := 80, unit := "°C" }
      (by decide)).2⟩

/-! ## C5: threshold update failure handling -/

/-- Counterexample to claim C5 as stated: the `InvalidSensorType` failure is
surfaced by the controller with HTTP status 500, which is not a client-error
(4xx) status — here for the unknown type `PRESSURE` with `max = 90`.  The
table is nevertheless left unchanged. -/
theorem updateThresholdController_unknown_type_counterexample :
    (updateThresholdController DEFAULT_THRESHOLDS "PRESSURE" none (some 90)).status = 500 ∧
    ¬ IsClientError
      (updateThresholdController DEFAULT_THRESHOLDS "PRESSURE" none (some 90)).status ∧
    (updateThresholdController DEFAULT_THRESHOLDS "PRESSURE" none (some 90)).table =
      DEFAULT_THRESHOLDS := by
  refine ⟨by decide, ?_, by decide⟩
  intro hch
  have h5 : (updateThresholdController DEFAULT_THRESHOLDS "PRESSURE" none (some 90)).status
      = 500 := by decide
  rw [h5] at hch
  exact absurd hch.2 (by norm_num)

/-- Claim C5 as amended: `updateThreshold` fails with `InvalidSensorType`
iff the type is not in the known table; the controller fails with
`InvalidArgument` (HTTP 400, a client error) iff neither `min` nor `max` is
supplied; every failure leaves the threshold table completely unchanged and
is surfaced as a non-fatal error response — but the `InvalidSensorType`
failure carries HTTP status 500 (a server-error status), not a 4xx client
error. -/
theorem updateThreshold_error_spec (table : ThresholdTable) (sensorType : String)
    (newMin newMax : Option ℚ) (hty : sensorType ≠ "") :
    (∀ patch : ThresholdPatch,
      (∃ msg, updateThreshold table sensorType patch = .error msg) ↔
        getThresholds table sensorType = none) ∧
    ((updateThresholdController table sensorType newMin newMax).status = 400 ↔
      newMin = none ∧ newMax = none) ∧
    (newMin = none ∧ newMax = none →
      IsClientError (updateThresholdController table sensorType newMin newMax).status ∧
      (updateThresholdController table sensorType newMin newMax).body =
        .error "At least one threshold value (min or max) is required") ∧
    (¬(newMin = none ∧ newMax = none) → getThresholds table sensorType = none →
      (updateThresholdController table sensorType newMin newMax).status = 500 ∧
      (updateThresholdController table sensorType newMin newMax).body =
        .error ("Invalid sensor type: " ++ sensorType)) ∧
    ((updateThresholdController table sensorType newMin newMax).status ≠ 200 →
      (updateThresholdController table sensorType newMin newMax).table = table) ∧
    ((updateThresholdController table sensorType newMin newMax).status = 200 ∨
      (updateThresholdController table sensorType newMin newMax).status = 400 ∨
      (updateThresholdController table sensorType newMin newMax).status = 500) := by
  refine ⟨?_, ?_, ?_, ?_, ?_, ?_⟩
  · intro patch
    unfold updateThreshold getThresholds
    cases h : lookupKey sensorType table with
    | none => simp
    | some entry => simp
  · unfold updateThresholdController
    rw [if_neg hty]
    by_cases hm : newMin = none ∧ newMax = none
    · simp [hm]
    · rw [if_neg hm]
      unfold updateThreshold
      cases h : lookupKey sensorType table with
      | none => simpa using hm
      | some entry => simpa using hm
  · intro hm
    unfold updateThresholdController
    rw [if_neg hty, if_pos hm]
    exact ⟨by unfold IsClientError; norm_num, rfl⟩
  · intro hm hnone
    unfold updateThresholdController
    rw [if_neg hty, if_neg hm]
    unfold updateThreshold
    rw [show lookupKey sensorType table = none from hnone]
    exact ⟨rfl, rfl⟩
  · intro hne
    unfold updateThresholdController at *
    by_cases hm : newMin = none ∧ newMax = none
    · rw [if_neg hty, if_pos hm]
    · rw [if_neg hty, if_neg hm] at hne ⊢
      unfold updateThreshold at hne ⊢
      cases h : lookupKey sensorType table with
      | none => rfl
      | some entry =>
        rw [h] at hne
        exact absurd rfl hne
  · unfold updateThresholdController
    by_cases hm : newMin = none ∧ newMax = none
    · rw [if_neg hty, if_pos hm]; right; left; rfl
    · rw [if_neg hty, if_neg hm]
      unfold updateThreshold
      cases h : lookupKey sensorType table with
      | none => right; right; rfl
      | some entry => left; rfl

/-- Witness for C5 (amended): instantiated at the default table with the
unknown type `PRESSURE`, discharging the hypotheses concretely. -/
theorem updateThreshold_error_spec_witness :
    (updateThresholdController DEFAULT_THRESHOLDS "PRESSURE" none (some 90)).status = 500 ∧
    (updateThresholdController DEFAULT_THRESHOLDS "PRESSURE" none (some 90)).table =
      DEFAULT_THRESHOLDS :=
  ⟨((updateThreshold_error_spec DEFAULT_THRESHOLDS "PRESSURE" none (some 90)
      (by decide)).2.2.2.1 (by simp) (by decide)).1,
   (updateThreshold_error_spec DEFAULT_THRESHOLDS "PRESSURE" none (some 90)
      (by decide)).2.2.2.2.1 (by decide)⟩

/-! ## C9: idempotent / non-throwing subscription commands -/

/-- Claim C9: `subscribe` and `unsubscribe` are total functions (they never
throw); naming an unknown connection id is a no-op that leaves the registry
unchanged; and issuing the same `unsubscribe` (or `subscribe`) twice leaves
the same state as issuing it once. -/
theorem subscribe_unsubscribe_spec (reg : Registry) (socketId channel : String) :
    (lookupKey socketId reg = none →
      subscribeCmd reg socketId channel = reg ∧
      unsubscribeCmd reg socketId channel = reg) ∧
    unsubscribeCmd (unsubscribeCmd reg socketId channel) socketId channel =
      unsubscribeCmd reg socketId channel ∧
    subscribeCmd (subscribeCmd reg socketId channel) socketId channel =
      subscribeCmd reg socketId channel := by
  refine ⟨?_, ?_, ?_⟩
  · intro h
    constructor
    · unfold subscribeCmd; rw [h]
    · unfold unsubscribeCmd; rw [h]
  · cases h : lookupKey socketId reg with
    | none => simp only [unsubscribeCmd, h]
    | some connection =>
      simp only [unsubscribeCmd, h, lookupKey_setKey_self, setKey_setKey]
  · cases h : lookupKey socketId reg with
    | none => simp only [subscribeCmd, h]
    | some connection =>
      simp only [subscribeCmd, h, lookupKey_setKey_self, setKey_setKey]

/-- Witness for C9: on a concrete registry holding only connection `B`, a
command naming the unknown id `X` leaves the registry unchanged. -/
theorem subscribe_unsubscribe_spec_witness :
    subscribeCmd (onConnect [] "B") "X" "safetyAlerts" = onConnect [] "B" ∧
    unsubscribeCmd (onConnect [] "B") "X" "safetyAlerts" = onConnect [] "B" :=
  (subscribe_unsubscribe_spec (onConnect [] "B") "X" "safetyAlerts").1 (by decide)

/-! ## C10: authenticate always acknowledges -/

/-- Claim C10: every `authenticate` command emits `authenticated
{success: true}` to the issuing socket unconditionally; when the connection
id is unknown the registry is left unchanged (no principal attached), and
when it is known the principal is attached to exactly that connection. -/
theorem authenticateCmd_spec (reg : Registry) (socketId : String) (userData : UserData) :
    (authenticateCmd reg socketId userData).2 = ("authenticated", true) ∧
    (lookupKey socketId reg = none → (authenticateCmd reg socketId userData).1 = reg) ∧
    (∀ connection, lookupKey socketId reg = some connection →
      lookupKey socketId (authenticateCmd reg socketId userData).1 =
        some { connection with user := some userData }) := by
  refine ⟨rfl, ?_, ?_⟩
  · intro h
    unfold authenticateCmd
    rw [h]
  · intro connection h
    unfold authenticateCmd
    rw [h]
    exact lookupKey_setKey_self socketId { connection with user := some userData } reg

/-- Witness for C10: on the empty registry (a racing disconnect), the ack is
still emitted with `success = true` and the registry stays empty; on a
registry holding `B`, the principal is attached. -/
theorem authenticateCmd_spec_witness :
    (authenticateCmd [] "X" demoUser).2 = ("authenticated", true) ∧
    (authenticateCmd [] "X" demoUser).1 = [] ∧
    lookupKey "B" (authenticateCmd (onConnect [] "B") "B" demoUser).1 =
      some { id := "B", subscriptions := defaultSubscriptions, user := some demoUser } :=
  ⟨(authenticateCmd_spec [] "X" demoUser).1,
   (authenticateCmd_spec [] "X" demoUser).2.1 (by decide),
   (authenticateCmd_spec (onConnect [] "B") "B" demoUser).2.2
     { id := "B", subscriptions := defaultSubscriptions, user := none } (by decide)⟩

/-! ## C8: broadcast scoping -/

/-- Claim C8: a non-empty `safetyAlerts` broadcast is delivered to exactly
those connections whose subscription set contains the channel; in the
two-connection scenario where `A` has unsubscribed from `safetyAlerts`, `A`
receives nothing and `B` receives the payload. -/
theorem broadcast_scoping_spec (reg : Registry) (alertList : List Alert)
    (socketId : String) (h : alertList ≠ []) :
    ((socketId, alertList) ∈ emitMultipleSafetyAlerts reg alertList ↔
      ∃ connection, (socketId, connection) ∈ reg ∧
        subscribedTo connection "safetyAlerts" = true) ∧
    emitMultipleSafetyAlerts demoRegistry alertList = [("B", alertList)] := by
  have hne : alertList.isEmpty = false := by
    cases alertList with
    | nil => exact absurd rfl h
    | cons a rest => rfl
  constructor
  · unfold emitMultipleSafetyAlerts
    rw [hne]
    simp only [Bool.false_eq_true, if_false, List.mem_map, List.mem_filter]
    constructor
    · rintro ⟨⟨i, c⟩, ⟨hm, hs⟩, heq⟩
      have hi : i = socketId := congrArg Prod.fst heq
      subst hi
      exact ⟨c, hm, hs⟩
    · rintro ⟨c, hm, hs⟩
      exact ⟨(socketId, c), ⟨hm, hs⟩, rfl⟩
  · have hreg : demoRegistry =
        [("A", { id := "A",
                 subscriptions := [("sensorReadings", true), ("safetyAlerts", false)],
                 user := none }),
         ("B", { id := "B", subscriptions := defaultSubscriptions, user := none })] := by
      decide
    rw [hreg]
    unfold emitMultipleSafetyAlerts
    rw [hne]
    simp [subscribedTo, lookupKey, defaultSubscriptions]

/-- Witness for C8: for the concrete payload `[demoAlert]` the scenario of
the claim evaluates as stated — `A` is absent from the deliveries and `B`
receives the payload. -/
theorem broadcast_scoping_spec_witness :
    emitMultipleSafetyAlerts demoRegistry [demoAlert] = [("B", [demoAlert])] :=
  (broadcast_scoping_spec demoRegistry [demoAlert] "B" (by decide)).2

/-! ## C1: alert generation -/

theorem mkAlert_isSome (table : ThresholdTable) (now sensorType : String) (r : Reading) :
    (mkAlert table now sensorType r).isSome = !(isReadingSafe table sensorType r.value) := by
  unfold mkAlert
  cases hs : isReadingSafe table sensorType r.value with
  | true => simp [hs]
  | false =>
    unfold isReadingSafe at hs
    cases hl : lookupKey sensorType table with
    | none => rw [hl] at hs; cases hs
    | some thr => simp [hs, hl]

theorem mkAlert_type {table : ThresholdTable} {now sensorType : String} {r : Reading}
    {a : Alert} (h : mkAlert table now sensorType r = some a) : a.type = sensorType := by
  unfold mkAlert at h
  cases hs : isReadingSafe table sensorType r.value with
  | true => rw [hs] at h; cases h
  | false =>
    rw [hs] at h
    cases hl : lookupKey sensorType table with
    | none => rw [hl] at h; cases h
    | some thr =>
      rw [hl] at h
      cases h
      rfl

theorem mkAlert_fields {table : ThresholdTable} {now sensorType : String} {r : Reading}
    {a : Alert} (h : mkAlert table now sensorType r = some a)
    {thr : ThresholdEntry} (hl : lookupKey sensorType table = some thr) :
    a.threshold = thr.max ∧ a.value = r.value ∧
    a.unit = strOrElse r.unit thr.unit ∧
    a.message = alertMessage sensorType r.value (strOrElse r.unit thr.unit) ∧
    a.timestamp = strOrElse r.timestamp now := by
  unfold mkAlert at h
  cases hs : isReadingSafe table sensorType r.value with
  | true => rw [hs] at h; cases h
  | false =>
    rw [hs, hl] at h
    cases h
    exact ⟨rfl, rfl, rfl, rfl, rfl⟩

theorem countP_checkReadings (table : ThresholdTable) (now : String)
    (readings : Readings) (sensorType : String) :
    (checkReadings table now readings).countP (fun a => a.type == sensorType) =
      readings.countP
        (fun p => p.1 == sensorType && !(isReadingSafe table p.1 p.2.value)) := by
  induction readings with
  | nil => rfl
  | cons p rest ih =>
    obtain ⟨t', r'⟩ := p
    unfold checkReadings at ih ⊢
    rw [List.filterMap_cons]
    cases h : mkAlert table now t' r' with
    | none =>
      have hsafe : isReadingSafe table t' r'.value = true := by
        have hi := mkAlert_isSome table now t' r'
        rw [h] at hi
        simpa using hi.symm
      rw [List.countP_cons]
      simp [hsafe, ih]
    | some a =>
      have htype : a.type = t' := mkAlert_type h
      have hunsafe : isReadingSafe table t' r'.value = false := by
        have hi := mkAlert_isSome table now t' r'
        rw [h] at hi
        simpa using hi.symm
      rw [List.countP_cons, List.countP_cons]
      simp [htype, hunsafe, ih]

theorem countP_key_unsafe (table : ThresholdTable) (readings : Readings)
    (sensorType : String) (r : Reading)
    (hnd : (readings.map Prod.fst).Nodup) (hm : (sensorType, r) ∈ readings) :
    readings.countP (fun p => p.1 == sensorType && !(isReadingSafe table p.1 p.2.value)) =
      if isReadingSafe table sensorType r.value then 0 else 1 := by
  induction readings with
  | nil => cases hm
  | cons p rest ih =>
    obtain ⟨t', r'⟩ := p
    rw [List.map_cons, List.nodup_cons] at hnd
    rw [List.countP_cons]
    rcases List.mem_cons.mp hm with heq | hmem
    · cases heq
      have hz : rest.countP
          (fun p => p.1 == sensorType && !(isReadingSafe table p.1 p.2.value)) = 0 := by
        rw [List.countP_eq_zero]
        intro q hq
        have hq1 : q.1 ≠ sensorType := by
          intro hcon
          have hmm : q.1 ∈ rest.map Prod.fst := List.mem_map_of_mem Prod.fst hq
          rw [hcon] at hmm
          exact hnd.1 hmm
        simp [hq1]
      rw [hz]
      cases hs : isReadingSafe table sensorType r.value <;> simp [hs]
    · have hne : t' ≠ sensorType := by
        intro hcon
        subst hcon
        have hmm := List.mem_map_of_mem Prod.fst hmem
        exact hnd.1 hmm
      rw [ih hnd.2 hmem]
      simp [hne]

theorem mem_key_unique {α : Type} {l : List (String × α)}
    (hnd : (l.map Prod.fst).Nodup) {t : String} {x y : α}
    (hx : (t, x) ∈ l) (hy : (t, y) ∈ l) : x = y := by
  induction l with
  | nil => cases hx
  | cons p rest ih =>
    rw [List.map_cons, List.nodup_cons] at hnd
    rcases List.mem_cons.mp hx with hex | hmx <;>
      rcases List.mem_cons.mp hy with hey | hmy
    · have hh : (t, x) = (t, y) := hex.trans hey.symm
      exact ((Prod.mk.injEq t x t y).mp hh).2
    · exfalso
      apply hnd.1
      rw [show p.1 = t by rw [← hex]]
      exact List.mem_map_of_mem Prod.fst hmy
    · exfalso
      apply hnd.1
      rw [show p.1 = t by rw [← hey]]
      exact List.mem_map_of_mem Prod.fst hmx
    · exact ih hnd.2 hmx hmy

/-- Claim C1: for every readings map and every `(type, reading)` pair in it,
with a configured threshold the result of `checkReadings` contains exactly
one alert for that pair iff `value < threshold.min` or
`value > threshold.max`, and such an alert carries `threshold =
threshold.max` and the message `"<type> exceeded safe level: <value>
<unit>"`; with no configured threshold the pair produces no alert
(fail-open).  Concretely, value 95 against `{min: 20, max: 80}` yields
exactly one alert with `threshold = 80`. -/
theorem checkReadings_alert_spec (table : ThresholdTable) (now : String)
    (readings : Readings) (sensorType : String) (r : Reading)
    (hnd : (readings.map Prod.fst).Nodup) (hm : (sensorType, r) ∈ readings) :
    (∀ thr, getThresholds table sensorType = some thr →
      (((checkReadings table now readings).countP (fun a => a.type == sensorType) = 1) ↔
        (r.value < thr.min ∨ r.value > thr.max)) ∧
      ∀ a ∈ checkReadings table now readings, a.type = sensorType →
        a.threshold = thr.max ∧ a.value = r.value ∧
        a.message = alertMessage sensorType r.value (strOrElse r.unit thr.unit)) ∧
    (getThresholds table sensorType = none →
      ∀ a ∈ checkReadings table now readings, a.type ≠ sensorType) ∧
    checkReadings DEFAULT_THRESHOLDS "T0"
      [("TEMPERATURE", { value := 95, unit := "°C", timestamp := "T1" })] =
      [{ type := "TEMPERATURE", value := 95, unit := "°C", threshold := 80,
         timestamp := "T1",
         message := "TEMPERATURE exceeded safe level: 95 °C" }] := by
  refine ⟨?_, ?_, by decide⟩
  · intro thr hl
    constructor
    · rw [countP_checkReadings, countP_key_unsafe table readings sensorType r hnd hm]
      unfold isReadingSafe
      rw [show lookupKey sensorType table = some thr from hl]
      by_cases hin : thr.min ≤ r.value ∧ r.value ≤ thr.max
      · simp [hin.1, hin.2, hin.1.not_lt, hin.2.not_lt]
      · rw [not_and_or, not_le, not_le] at hin
        have hfalse : (decide (thr.min ≤ r.value) && decide (r.value ≤ thr.max)) = false := by
          rcases hin with hlt | hgt
          · simp [not_le.mpr hlt]
          · simp [not_le.mpr hgt]
        simp [hfalse]
        exact hin
    · intro a ha htype
      unfold checkReadings at ha
      obtain ⟨p, hp, hpe⟩ := List.mem_filterMap.mp ha
      obtain ⟨t', r'⟩ := p
      have hts : sensorType = t' := by
        rw [← htype]
        exact mkAlert_type hpe
      subst hts
      have hr' : r = r' := mem_key_unique hnd hm hp
      subst hr'
      obtain ⟨h1, h2, _, h4, _⟩ := mkAlert_fields hpe hl
      exact ⟨h1, h2, h4⟩
  · intro hl a ha hcon
    unfold checkReadings at ha
    obtain ⟨p, hp, hpe⟩ := List.mem_filterMap.mp ha
    obtain ⟨t', r'⟩ := p
    have hts : sensorType = t' := by
      rw [← hcon]
      exact mkAlert_type hpe
    subst hts
    have hsafe : isReadingSafe table sensorType r'.value = true := by
      unfold isReadingSafe
      rw [show lookupKey sensorType table = none from hl]
    have hi := mkAlert_isSome table now sensorType r'
    rw [hpe, hsafe] at hi
    cases hi

/-- Witness for C1: the hypotheses hold for the singleton readings map
`{TEMPERATURE: {value: 95, unit: '°C'}}` against the default threshold
`{min: 20, max: 80}`, and `checkReadings` produces exactly one
`TEMPERATURE` alert. -/
theorem checkReadings_alert_spec_witness :
    (checkReadings DEFAULT_THRESHOLDS "T0"
      [("TEMPERATURE", { value := 95, unit := "°C", timestamp := "T1" })]).countP
      (fun a => a.type == "TEMPERATURE") = 1 :=
  ((checkReadings_alert_spec DEFAULT_THRESHOLDS "T0"
      [("TEMPERATURE", { value := 95, unit := "°C", timestamp := "T1" })]
      "TEMPERATURE" { value := 95, unit := "°C", timestamp := "T1" }
      (by decide) (by decide)).1
    { min := 20, max := 80, unit := "°C" } (by decide)).1.mpr (by norm_num)

/-! ## C2: generated values stay within the configured bounds -/

theorem round_mono_rat {x y : ℚ} (h : x ≤ y) : round x ≤ round y := by
  rw [round_eq, round_eq]
  exact Int.floor_le_floor (by linarith)

theorem round2_le_intCast {q : ℚ} {m : ℤ} (h : q ≤ (m : ℚ)) : round2 q ≤ (m : ℚ) := by
  unfold round2
  have h1 : round (q * 100) ≤ round (((m * 100 : ℤ) : ℚ)) := by
    apply round_mono_rat
    push_cast
    linarith
  rw [round_intCast] at h1
  have h2 : ((round (q * 100) : ℤ) : ℚ) ≤ ((m * 100 : ℤ) : ℚ) := by
    exact_mod_cast h1
  rw [div_le_iff₀ (by norm_num : (0 : ℚ) < 100)]
  push_cast at h2 ⊢
  linarith

theorem intCast_le_round2 {q : ℚ} {m : ℤ} (h : (m : ℚ) ≤ q) : (m : ℚ) ≤ round2 q := by
  unfold round2
  have h1 : round (((m * 100 : ℤ) : ℚ)) ≤ round (q * 100) := by
    apply round_mono_rat
    push_cast
    linarith
  rw [round_intCast] at h1
  have h2 : ((m * 100 : ℤ) : ℚ) ≤ ((round (q * 100) : ℤ) : ℚ) := by
    exact_mod_cast h1
  rw [le_div_iff₀ (by norm_num : (0 : ℚ) < 100)]
  push_cast at h2 ⊢
  linarith

theorem generateReading_bounds_of_int (config : SensorTypeConfig) (mz Mz : ℤ)
    (hm : config.min = (mz : ℚ)) (hM : config.max = (Mz : ℚ))
    (hle : config.min ≤ config.max) (active : Bool)
    (sinDaily noiseUnit anomalyShape : ℚ) (timestamp : String) :
    config.min ≤
      (generateReading config active sinDaily noiseUnit anomalyShape timestamp).value ∧
    (generateReading config active sinDaily noiseUnit anomalyShape timestamp).value ≤
      config.max := by
  unfold generateReading
  constructor
  · rw [hm]
    apply intCast_le_round2
    rw [← hm]
    exact le_max_left _ _
  · rw [hM]
    apply round2_le_intCast
    rw [← hM]
    exact max_le hle (min_le_left _ _)

/-- Claim C2: for every sensor type, every anomaly state and every value of
the time- and randomness-dependent inputs, the value of the `Reading`
returned by `generateReading` lies within `[min, max]` of that type's
`SENSOR_TYPES` configuration (the clamp happens before the 2-decimal
rounding, and the integral configured bounds are fixed points of that
rounding). -/
theorem generateReading_value_in_bounds (sensorType : SensorType) (active : Bool)
    (sinDaily noiseUnit anomalyShape : ℚ) (timestamp : String) :
    (SENSOR_TYPES sensorType).min ≤
      (generateReading (SENSOR_TYPES sensorType) active sinDaily noiseUnit anomalyShape
        timestamp).value ∧
    (generateReading (SENSOR_TYPES sensorType) active sinDaily noiseUnit anomalyShape
        timestamp).value ≤ (SENSOR_TYPES sensorType).max := by
  cases sensorType with
  | VIBRATION =>
    exact generateReading_bounds_of_int _ 0 15 (by norm_num [SENSOR_TYPES])
      (by norm_num [SENSOR_TYPES]) (by norm_num [SENSOR_TYPES]) _ _ _ _ _
  | TEMPERATURE =>
    exact generateReading_bounds_of_int _ 20 100 (by norm_num [SENSOR_TYPES])
      (by norm_num [SENSOR_TYPES]) (by norm_num [SENSOR_TYPES]) _ _ _ _ _
  | CURRENT =>
    exact generateReading_bounds_of_int _ 0 50 (by norm_num [SENSOR_TYPES])
      (by norm_num [SENSOR_TYPES]) (by norm_num [SENSOR_TYPES]) _ _ _ _ _

/-! ## C3: per-tick broadcasting -/

theorem isEmpty_false_of_ne_nil {α : Type} {l : List α} (h : l ≠ []) :
    l.isEmpty = false := by
  cases l with
  | nil => exact absurd rfl h
  | cons a rest => rfl

/-- Counterexample to claim C3 as stated: in the reduced-frequency simulator
variant, a tick arriving less than `UPDATE_INTERVAL` (3000 ms) after the
last frontend update emits nothing at all — here a tick at `now = 4000`
with `lastFrontendUpdate = 3000` broadcasts no `sensorReadings`, even
though the readings would produce a safety alert. -/
theorem reducedTick_skips_broadcast :
    (simulatorTickReduced DEFAULT_THRESHOLDS 3000 4000 "T0"
      [("TEMPERATURE", { value := 95, unit := "°C", timestamp := "T1" })]).emissions = [] ∧
    checkReadings DEFAULT_THRESHOLDS "T0"
      [("TEMPERATURE", { value := 95, unit := "°C", timestamp := "T1" })] ≠ [] := by
  decide

/-- Claim C3 as amended: in the plain simulator (`sensorSimulator.js`),
every tick broadcasts the freshly generated readings map on
`sensorReadings` unconditionally, and broadcasts `safetyAlerts` — carrying
exactly the evaluator's output — iff the evaluator produced at least one
alert.  In the reduced-frequency variant (`part_007`), a tick within
`UPDATE_INTERVAL` ms of the last frontend update emits nothing, and any
other tick behaves like the plain simulator tick. -/
theorem simulatorTick_broadcast_spec (table : ThresholdTable) (now : String)
    (readings : Readings) (lastUpdate tick : ℤ) :
    (("sensorReadings", Payload.readings readings) ∈ simulatorTick table now readings) ∧
    ((∃ alertList, ("safetyAlerts", Payload.alerts alertList) ∈
        simulatorTick table now readings) ↔ checkReadings table now readings ≠ []) ∧
    (∀ alertList, ("safetyAlerts", Payload.alerts alertList) ∈
        simulatorTick table now readings →
      alertList = checkReadings table now readings) ∧
    (tick - lastUpdate < UPDATE_INTERVAL →
      simulatorTickReduced table lastUpdate tick now readings =
        { lastFrontendUpdate := lastUpdate, emissions := [] }) ∧
    (UPDATE_INTERVAL ≤ tick - lastUpdate →
      simulatorTickReduced table lastUpdate tick now readings =
        { lastFrontendUpdate := tick,
          emissions := simulatorTick table now readings }) := by
  refine ⟨?_, ?_, ?_, ?_, ?_⟩
  · unfold simulatorTick
    exact List.mem_cons_self _ _
  · by_cases he : checkReadings table now readings = []
    · simp [simulatorTick, he]
    · have hf := isEmpty_false_of_ne_nil he
      refine ⟨fun _ => he, fun _ => ⟨checkReadings table now readings, ?_⟩⟩
      simp [simulatorTick, hf]
  · intro alertList hmem
    by_cases he : checkReadings table now readings = []
    · simp [simulatorTick, he] at hmem
    · have hf := isEmpty_false_of_ne_nil he
      simp [simulatorTick, hf] at hmem
      exact hmem
  · intro h
    simp [simulatorTickReduced, REDUCE_FREQUENCY, h]
  · intro h
    have hcon : ¬(tick - lastUpdate < UPDATE_INTERVAL) := not_lt.mpr h
    simp [simulatorTickReduced, hcon]

/-- Witness for C3 (amended): a tick 1000 ms after the last update is
skipped entirely, while a tick 5000 ms after it performs the full
broadcast. -/
theorem simulatorTick_broadcast_spec_witness :
    simulatorTickReduced DEFAULT_THRESHOLDS 3000 4000 "T0" [] =
      { lastFrontendUpdate := 3000, emissions := [] } ∧
    simulatorTickReduced DEFAULT_THRESHOLDS 0 5000 "T0" [] =
      { lastFrontendUpdate := 5000,
        emissions := simulatorTick DEFAULT_THRESHOLDS "T0" [] } :=
  ⟨(simulatorTick_broadcast_spec DEFAULT_THRESHOLDS "T0" [] 3000 4000).2.2.2.1 (by decide),
   (simulatorTick_broadcast_spec DEFAULT_THRESHOLDS "T0" [] 0 5000).2.2.2.2 (by decide)⟩

/-! ## C6: history eviction -/

theorem head?_take {α : Type} (l : List α) (n : ℕ) (h : 0 < n) :
    (l.take n).head? = l.head? := by
  cases l with
  | nil => simp
  | cons a rest =>
    cases n with
    | zero => exact absurd h (lt_irrefl 0)
    | succ m => simp

theorem updateLatestReadings_skip (s : SensorControllerState) (nowTs : String)
    (readings : Readings) (h : (s.readingsCounter + 1) % HISTORY_SAMPLING_RATE ≠ 0) :
    (updateLatestReadings s nowTs readings).readingsHistory = s.readingsHistory := by
  simp [updateLatestReadings, h]

theorem updateLatestReadings_record (s : SensorControllerState) (nowTs : String)
    (readings : Readings) (h : (s.readingsCounter + 1) % HISTORY_SAMPLING_RATE = 0) :
    (updateLatestReadings s nowTs readings).readingsHistory =
      if s.readingsHistory.length + 1 > MAX_HISTORY_SIZE + HISTORY_OVERFLOW_MARGIN then
        (({ timestamp := nowTs, data := readings } : HistoryEntry) ::
          s.readingsHistory).take MAX_HISTORY_SIZE
      else ({ timestamp := nowTs, data := readings } : HistoryEntry) :: s.readingsHistory := by
  simp [updateLatestReadings, h]

theorem updateLatestReadings_counter (s : SensorControllerState) (nowTs : String)
    (readings : Readings) :
    (updateLatestReadings s nowTs readings).readingsCounter = s.readingsCounter + 1 := by
  unfold updateLatestReadings
  by_cases h : (s.readingsCounter + 1) % HISTORY_SAMPLING_RATE ≠ 0 <;> simp [h]

theorem runUpdates_counter (n : ℕ) : (runUpdates n).readingsCounter = n := by
  induction n with
  | zero => rfl
  | succ k ih =>
    show (updateLatestReadings (runUpdates k) (toString (k + 1)) []).readingsCounter = k + 1
    rw [updateLatestReadings_counter, ih]

theorem runUpdates_length (k : ℕ)
    (h : k ≤ MAX_HISTORY_SIZE + HISTORY_OVERFLOW_MARGIN) :
    (runUpdates (2 * k)).readingsHistory.length = k ∧
    (runUpdates (2 * k + 1)).readingsHistory.length = k := by
  induction k with
  | zero =>
    constructor
    · rfl
    · show (updateLatestReadings (runUpdates 0) (toString 1) []).readingsHistory.length = 0
      rw [updateLatestReadings_skip]
      · rfl
      · rw [runUpdates_counter]
        decide
  | succ k ih =>
    have hk : k ≤ MAX_HISTORY_SIZE + HISTORY_OVERFLOW_MARGIN :=
      le_trans (Nat.le_succ k) h
    obtain ⟨ih0, ih1⟩ := ih hk
    have hrec : ((runUpdates (2 * k + 1)).readingsCounter + 1) % HISTORY_SAMPLING_RATE = 0 := by
      rw [runUpdates_counter]
      unfold HISTORY_SAMPLING_RATE
      omega
    have hstep : runUpdates (2 * k + 1 + 1) =
        updateLatestReadings (runUpdates (2 * k + 1)) (toString (2 * k + 1 + 1)) [] := rfl
    have hnof : ¬((runUpdates (2 * k + 1)).readingsHistory.length + 1 >
        MAX_HISTORY_SIZE + HISTORY_OVERFLOW_MARGIN) := by
      rw [ih1]
      omega
    have hlen2 : (runUpdates (2 * k + 1 + 1)).readingsHistory.length = k + 1 := by
      rw [hstep, updateLatestReadings_record _ _ _ hrec, if_neg hnof,
        List.length_cons, ih1]
    have e1 : 2 * (k + 1) = 2 * k + 1 + 1 := by ring
    refine ⟨by rw [e1]; exact hlen2, ?_⟩
    have hodd : ((runUpdates (2 * k + 1 + 1)).readingsCounter + 1) %
        HISTORY_SAMPLING_RATE ≠ 0 := by
      rw [runUpdates_counter]
      unfold HISTORY_SAMPLING_RATE
      omega
    have hstep2 : runUpdates (2 * k + 1 + 1 + 1) =
        updateLatestReadings (runUpdates (2 * k + 1 + 1)) (toString (2 * k + 1 + 1 + 1)) [] := rfl
    have e2 : 2 * (k + 1) + 1 = 2 * k + 1 + 1 + 1 := by ring
    rw [e2, hstep2, updateLatestReadings_skip _ _ _ hodd, hlen2]

/-- Claim C6: a recorded append never leaves the buffer longer than
`capacity + margin`, places the new entry first, and truncates to exactly
`capacity` whenever the bound would be exceeded; a sampled-out call leaves
the buffer untouched; and, concretely, recording `capacity + margin + 1`
entries from the empty state (i.e. `2 * (capacity + margin + 1)` simulator
calls at sampling rate 2) leaves the buffer at exactly `capacity` entries
with the newest entry first. -/
theorem history_eviction_spec :
    (∀ (s : SensorControllerState) (nowTs : String) (readings : Readings),
      ((s.readingsCounter + 1) % HISTORY_SAMPLING_RATE ≠ 0 →
        (updateLatestReadings s nowTs readings).readingsHistory = s.readingsHistory) ∧
      ((s.readingsCounter + 1) % HISTORY_SAMPLING_RATE = 0 →
        (updateLatestReadings s nowTs readings).readingsHistory.length ≤
          MAX_HISTORY_SIZE + HISTORY_OVERFLOW_MARGIN ∧
        (updateLatestReadings s nowTs readings).readingsHistory.head? =
          some { timestamp := nowTs, data := readings } ∧
        (s.readingsHistory.length + 1 > MAX_HISTORY_SIZE + HISTORY_OVERFLOW_MARGIN →
          (updateLatestReadings s nowTs readings).readingsHistory.length =
            MAX_HISTORY_SIZE))) ∧
    (runUpdates (2 * (MAX_HISTORY_SIZE + HISTORY_OVERFLOW_MARGIN + 1))).readingsHistory.length
      = MAX_HISTORY_SIZE ∧
    (runUpdates (2 * (MAX_HISTORY_SIZE + HISTORY_OVERFLOW_MARGIN + 1))).readingsHistory.head?
      = some { timestamp := toString (2 * (MAX_HISTORY_SIZE + HISTORY_OVERFLOW_MARGIN + 1)),
               data := [] } := by
  have hstepfact : ∀ (s : SensorControllerState) (nowTs : String) (readings : Readings),
      (s.readingsCounter + 1) % HISTORY_SAMPLING_RATE = 0 →
      (updateLatestReadings s nowTs readings).readingsHistory.length ≤
        MAX_HISTORY_SIZE + HISTORY_OVERFLOW_MARGIN ∧
      (updateLatestReadings s nowTs readings).readingsHistory.head? =
        some { timestamp := nowTs, data := readings } ∧
      (s.readingsHistory.length + 1 > MAX_HISTORY_SIZE + HISTORY_OVERFLOW_MARGIN →
        (updateLatestReadings s nowTs readings).readingsHistory.length =
          MAX_HISTORY_SIZE) := by
    intro s nowTs readings h
    rw [updateLatestReadings_record s nowTs readings h]
    by_cases hof : s.readingsHistory.length + 1 >
        MAX_HISTORY_SIZE + HISTORY_OVERFLOW_MARGIN
    · rw [if_pos hof]
      refine ⟨?_, ?_, fun _ => ?_⟩
      · rw [List.length_take, List.length_cons]
        unfold MAX_HISTORY_SIZE HISTORY_OVERFLOW_MARGIN at *
        omega
      · rw [head?_take]
        · rfl
        · unfold MAX_HISTORY_SIZE
          omega
      · rw [List.length_take, List.length_cons]
        unfold MAX_HISTORY_SIZE HISTORY_OVERFLOW_MARGIN at *
        omega
    · rw [if_neg hof]
      refine ⟨?_, rfl, fun hcon => absurd hcon hof⟩
      rw [List.length_cons]
      omega
  refine ⟨fun s nowTs readings =>
      ⟨updateLatestReadings_skip s nowTs readings, hstepfact s nowTs readings⟩, ?_, ?_⟩
  · have h350 : (runUpdates (2 * (MAX_HISTORY_SIZE + HISTORY_OVERFLOW_MARGIN) + 1)).readingsHistory.length
        = MAX_HISTORY_SIZE + HISTORY_OVERFLOW_MARGIN :=
      (runUpdates_length (MAX_HISTORY_SIZE + HISTORY_OVERFLOW_MARGIN) le_rfl).2
    have hrec : ((runUpdates (2 * (MAX_HISTORY_SIZE + HISTORY_OVERFLOW_MARGIN) + 1)).readingsCounter
        + 1) % HISTORY_SAMPLING_RATE = 0 := by
      rw [runUpdates_counter]
      decide
    have hstep : runUpdates (2 * (MAX_HISTORY_SIZE + HISTORY_OVERFLOW_MARGIN + 1)) =
        updateLatestReadings
          (runUpdates (2 * (MAX_HISTORY_SIZE + HISTORY_OVERFLOW_MARGIN) + 1))
          (toString (2 * (MAX_HISTORY_SIZE + HISTORY_OVERFLOW_MARGIN + 1))) [] := rfl
    rw [hstep]
    exact (hstepfact _ _ _ hrec).2.2 (by rw [h350]; omega)
  · have hrec : ((runUpdates (2 * (MAX_HISTORY_SIZE + HISTORY_OVERFLOW_MARGIN) + 1)).readingsCounter
        + 1) % HISTORY_SAMPLING_RATE = 0 := by
      rw [runUpdates_counter]
      decide
    have hstep : runUpdates (2 * (MAX_HISTORY_SIZE + HISTORY_OVERFLOW_MARGIN + 1)) =
        updateLatestReadings
          (runUpdates (2 * (MAX_HISTORY_SIZE + HISTORY_OVERFLOW_MARGIN) + 1))
          (toString (2 * (MAX_HISTORY_SIZE + HISTORY_OVERFLOW_MARGIN + 1))) [] := rfl
    rw [hstep]
    exact (hstepfact _ _ _ hrec).2.1

/-- Witness for C6: a concrete state whose buffer already holds
`capacity + margin` entries is truncated to exactly `capacity` by the next
recorded append, which also lands at the front. -/
theorem history_eviction_spec_witness :
    (updateLatestReadings
      { latestReadings := [],
        readingsHistory := List.replicate 350 { timestamp := "x", data := [] },
        readingsCounter := 1 } "w" []).readingsHistory.length = MAX_HISTORY_SIZE ∧
    (updateLatestReadings
      { latestReadings := [],
        readingsHistory := List.replicate 350 { timestamp := "x", data := [] },
        readingsCounter := 1 } "w" []).readingsHistory.head? =
      some { timestamp := "w", data := [] } := by
  have h := (history_eviction_spec.1
    { latestReadings := [],
      readingsHistory := List.replicate 350 { timestamp := "x", data := [] },
      readingsCounter := 1 } "w" []).2 (by decide)
  refine ⟨h.2.2 ?_, h.2.1⟩
  rw [List.length_replicate]
  decide

/-! ## C7: history query cap and projection -/

theorem projectEntry_timestamp {sensorType : String} {e e' : HistoryEntry}
    (h : projectEntry sensorType e = some e') : e'.timestamp = e.timestamp := by
  unfold projectEntry at h
  cases hl : lookupKey sensorType e.data with
  | none => rw [hl] at h; cases h
  | some d =>
    rw [hl] at h
    cases h
    rfl

theorem map_timestamp_filterMap_sublist (sensorType : String) (l : List HistoryEntry) :
    ((l.filterMap (projectEntry sensorType)).map HistoryEntry.timestamp).Sublist
      (l.map HistoryEntry.timestamp) := by
  induction l with
  | nil => simp
  | cons e rest ih =>
    rw [List.filterMap_cons]
    cases h : projectEntry sensorType e with
    | none =>
      rw [List.map_cons]
      exact ih.cons _
    | some e' =>
      rw [List.map_cons, List.map_cons, projectEntry_timestamp h]
      exact ih.cons₂ _

/-- Claim C7: every history query returns at most `min(limit, 100)` entries
— in particular at most 100 for `limit = 10000` with no type filter; with
no type filter the result is exactly the `min(limit, 100)` newest entries;
the returned timestamps form a subsequence of the buffer's, so any
newest-first ordering of the buffer is preserved; and with a type filter
every returned entry is the projection to that type's reading of a buffer
entry actually containing it (entries lacking it are dropped, never
returned as null/empty). -/
theorem getReadingsHistory_query_spec (history : List HistoryEntry) (limit : ℕ) :
    (∀ sensorType : Option String,
      (getReadingsHistory history sensorType limit).length ≤ min limit 100 ∧
      ((getReadingsHistory history sensorType limit).map HistoryEntry.timestamp).Sublist
        (history.map HistoryEntry.timestamp) ∧
      ∀ R : String → String → Prop,
        (history.map HistoryEntry.timestamp).Pairwise R →
        ((getReadingsHistory history sensorType limit).map HistoryEntry.timestamp).Pairwise R) ∧
    getReadingsHistory history none limit = history.take (min limit 100) ∧
    (getReadingsHistory history none 10000).length ≤ 100 ∧
    (∀ t : String, ∀ e ∈ getReadingsHistory history (some t) limit,
      ∃ d, e.data = [(t, d)] ∧
        ∃ e0, e0 ∈ history ∧ e0.timestamp = e.timestamp ∧
          lookupKey t e0.data = some d) := by
  have hsub : ∀ sensorType : Option String,
      ((getReadingsHistory history sensorType limit).map HistoryEntry.timestamp).Sublist
        (history.map HistoryEntry.timestamp) := by
    intro sensorType
    cases sensorType with
    | none =>
      show ((history.take (min limit 100)).map HistoryEntry.timestamp).Sublist
        (history.map HistoryEntry.timestamp)
      rw [List.map_take]
      exact List.take_sublist _ _
    | some t =>
      show (((history.take (min limit 100)).filterMap (projectEntry t)).map
        HistoryEntry.timestamp).Sublist (history.map HistoryEntry.timestamp)
      refine (map_timestamp_filterMap_sublist t _).trans ?_
      rw [List.map_take]
      exact List.take_sublist _ _
  refine ⟨fun sensorType => ⟨?_, hsub sensorType, fun R hp => hp.sublist (hsub sensorType)⟩,
    rfl, ?_, ?_⟩
  · cases sensorType with
    | none =>
      unfold getReadingsHistory
      rw [List.length_take]
      exact min_le_left _ _
    | some t =>
      unfold getReadingsHistory
      refine le_trans (List.length_filterMap_le _ _) ?_
      rw [List.length_take]
      exact min_le_left _ _
  · unfold getReadingsHistory
    rw [List.length_take]
    have h1 : min (min 10000 100) history.length ≤ min 10000 100 := min_le_left _ _
    exact le_trans h1 (by norm_num)
  · intro t e he
    unfold getReadingsHistory at he
    obtain ⟨e0, he0, hproj⟩ := List.mem_filterMap.mp he
    have he0h : e0 ∈ history := List.take_subset _ _ he0
    unfold projectEntry at hproj
    cases hl : lookupKey t e0.data with
    | none => rw [hl] at hproj; cases hproj
    | some d =>
      rw [hl] at hproj
      cases hproj
      exact ⟨d, rfl, e0, he0h, rfl, hl⟩

/-- Witness for C7: on a concrete two-entry buffer with distinct
timestamps, the pairwise hypothesis holds and is preserved by the projected
query, and the cap holds for `limit = 10000`. -/
theorem getReadingsHistory_query_spec_witness :
    ((getReadingsHistory demoHistory (some "TEMPERATURE") 10000).map
      HistoryEntry.timestamp).Pairwise (fun a b => a ≠ b) ∧
    (getReadingsHistory demoHistory none 10000).length ≤ 100 :=
  ⟨((getReadingsHistory_query_spec demoHistory 10000).1 (some "TEMPERATURE")).2.2
      (fun a b => a ≠ b) (by decide),
   (getReadingsHistory_query_spec demoHistory 10000).2.2.1⟩

end SmartMaintenance
